import Mathlib

/-!
Shallow embedding of the Fargate sidecar injector
(`addDatadogToFargateTask` and its configuration types) from
`datadog-ecs-cdk`, together with theorems settling the spec claims.

Optional TypeScript fields are modelled as `Option`; JavaScript
truthiness of optional booleans, numbers and strings is modelled
explicitly; mutation of the task is modelled by explicit state passing;
exceptions thrown by the CDK collaborator (duplicate construct id on
`addContainer`, TypeError on dereferencing `undefined`) are modelled by
returning the state reached so far paired with an error marker, since a
thrown exception propagates out of the injector while the mutations
already applied to the task persist.
-/

/-- Opaque model of `ecs.ContainerImage`: either a registry reference
produced by `ContainerImage.fromRegistry`, or some other caller-supplied
image. -/
inductive ContainerImage where
  | fromRegistry (name : String)
  | custom (id : Nat)
deriving DecidableEq

/-- Opaque model of `ecs.Secret`. -/
structure EcsSecret where
  id : Nat
deriving DecidableEq

/-- Mirror of `DatadogFargateApmApplicationEnvVarsProps`. -/
structure DatadogFargateApmApplicationEnvVarsProps where
  doNotSet : Option Bool := none
  apmHostEnvVarName : Option String := none
  apmPortEnvVarName : Option String := none
  apmTraceEnabledEnvVarName : Option String := none
deriving DecidableEq

/-- Mirror of `DatadogFargateApmProps`. -/
structure DatadogFargateApmProps where
  enabled : Option Bool := none
  port : Option Nat := none
  applicationEnvVars : Option DatadogFargateApmApplicationEnvVarsProps := none
deriving DecidableEq

/-- Mirror of `DatadogFargateStatsdApplicationEnvVarsProps`. -/
structure DatadogFargateStatsdApplicationEnvVarsProps where
  doNotSet : Option Bool := none
  statsdHostEnvVarName : Option String := none
  statsdPortEnvVarName : Option String := none
deriving DecidableEq

/-- Mirror of `DatadogFargateStatsdProps`. -/
structure DatadogFargateStatsdProps where
  enabled : Option Bool := none
  port : Option Nat := none
  applicationEnvVars : Option DatadogFargateStatsdApplicationEnvVarsProps := none
deriving DecidableEq

/-- Mirror of `DatadogFargateAgentProps`.  The field `tags` is
modelled as an insertion-ordered association list, matching the
`Object.entries` iteration order used by `formatTags`. -/
structure DatadogFargateAgentProps where
  enabled : Option Bool := none
  image : Option ContainerImage := none
  imageTag : Option String := none
  memoryLimitMiB : Option Nat := none
  cpu : Option Nat := none
  logToCloudWatch : Option Bool := none
  tags : Option (List (String × String)) := none
  apm : Option DatadogFargateApmProps := none
  statsd : Option DatadogFargateStatsdProps := none
deriving DecidableEq

/-- Mirror of `DatadogFargateFirelensLoggingProps`. -/
structure DatadogFargateFirelensLoggingProps where
  enabled : Option Bool := none
  service : Option String := none
  source : Option String := none
  tags : Option (List (String × String)) := none
  memoryLimitMiB : Option Nat := none
  cpu : Option Nat := none
  image : Option ContainerImage := none
  imageTag : Option String := none
deriving DecidableEq

/-- Mirror of `AddDatadogToFargateTaskProps`. -/
structure AddDatadogToFargateTaskProps where
  datadogApiKeySecret : EcsSecret
  datadogSite : Option String := none
  agent : Option DatadogFargateAgentProps := none
  fireLensLogging : Option DatadogFargateFirelensLoggingProps := none
deriving DecidableEq

/-- The logging option passed on a container definition; only the
`ecs.LogDrivers.awsLogs` variant (with its stream prefix string) is used
by the injector. -/
inductive LogDriverSetting where
  | awsLogs (streamName : String)
deriving DecidableEq

/-- The `firelensConfig` passed to `addFirelensLogRouter`: router type
plus the `enableECSLogMetadata` option. -/
structure FirelensRouterConfig where
  routerType : String
  enableECSLogMetadata : Bool
deriving DecidableEq

/-- Result of `LogDriver.bind`: the rendered log driver configuration
assigned onto a container (`logDriverConfig`). -/
structure LogDriverConfig where
  logDriver : String
  options : List (String × String)
  secretOptions : List (String × EcsSecret)
deriving DecidableEq

/-- Model of an `ecs.ContainerDefinition` restricted to the fields the
injector reads or writes.  `environment` is an insertion-ordered
association list with unique keys (CDK stores `environment[key] =
value`). -/
structure ContainerDef where
  containerName : String
  image : ContainerImage := ContainerImage.custom 0
  memoryLimitMiB : Option Nat := none
  cpu : Option Nat := none
  environment : List (String × String) := []
  secrets : List (String × EcsSecret) := []
  logging : Option LogDriverSetting := none
  firelensConfig : Option FirelensRouterConfig := none
  logDriverConfig : Option LogDriverConfig := none
deriving DecidableEq

/-- Model of an `ecs.TaskDefinition`: the ordered list of containers
added so far. -/
structure TaskDefinition where
  containers : List ContainerDef := []
deriving DecidableEq

/-- Errors thrown by the CDK collaborator and propagated (uncaught) out
of the injector: a duplicate construct id on `addContainer` /
`addFirelensLogRouter`, or a JS `TypeError` from dereferencing
`undefined`. -/
inductive JsError where
  | duplicateConstruct (id : String)
  | typeError
deriving DecidableEq

/-- JS truthiness of an optional boolean (`undefined` and `false` are
falsy). -/
def jsTruthy : Option Bool → Bool
  | some b => b
  | none => false

/-- JS truthiness of an optional number (`undefined` and `0` are
falsy). -/
def jsTruthyNat : Option Nat → Bool
  | some n => n != 0
  | none => false

/-- JS truthiness of an optional string (`undefined` and `""` are
falsy). -/
def jsTruthyStr : Option String → Bool
  | some s => s != ""
  | none => false

/-- Embeds `String(x ?? d)` where `x` is an optional number and `d` a string
literal default. -/
def numOrStr (o : Option Nat) (d : String) : String :=
  match o with
  | some n => toString n
  | none => d

/-- JS `Array.prototype.join(sep)` on a list of strings. -/
def joinWithSep (sep : String) : List String → String
  | [] => ""
  | [x] => x
  | x :: y :: rest => x ++ sep ++ joinWithSep sep (y :: rest)

/-- Embeds `formatTags`: render each entry as `key:value` and join with the
given separator. -/
def formatTags (tags : List (String × String)) (sep : String) : String :=
  joinWithSep sep (tags.map (fun kv => kv.1 ++ ":" ++ kv.2))

/-- Embeds `ContainerDefinition.addEnvironment(key, value)`: overwrite the
value when the key is present, otherwise append the pair. -/
def setEnv (env : List (String × String)) (k v : String) : List (String × String) :=
  if env.any (fun p => p.1 == k)
  then env.map (fun p => if p.1 == k then (p.1, v) else p)
  else env ++ [(k, v)]

/-- Embeds `TaskDefinition.findContainer(name)`: first container with the
given name, if any. -/
def TaskDefinition.findContainer (t : TaskDefinition) (name : String) : Option ContainerDef :=
  t.containers.find? (fun c => c.containerName == name)

/-- In-place mutation of the first container with the given name. -/
def updateFirst (f : ContainerDef → ContainerDef) (name : String) : List ContainerDef → List ContainerDef
  | [] => []
  | c :: cs => if c.containerName == name then f c :: cs else c :: updateFirst f name cs

/-- Embeds `TaskDefinition.addContainer` (also used for
`addFirelensLogRouter`): fails with a duplicate-construct-id error when
a container with that name already exists, otherwise appends. -/
def TaskDefinition.addContainer (t : TaskDefinition) (c : ContainerDef) :
    TaskDefinition × Option JsError :=
  if t.containers.any (fun d => d.containerName == c.containerName)
  then (t, some (JsError.duplicateConstruct c.containerName))
  else ({ containers := t.containers ++ [c] }, none)

/-- Getter for `props.agent?.apm`. -/
def apmOpt (props : AddDatadogToFargateTaskProps) : Option DatadogFargateApmProps :=
  props.agent.bind (fun a => a.apm)

/-- Getter for `props.agent?.statsd`. -/
def statsdOpt (props : AddDatadogToFargateTaskProps) : Option DatadogFargateStatsdProps :=
  props.agent.bind (fun a => a.statsd)

/-- Truthiness of `props.agent?.enabled`. -/
def agentEnabledB (props : AddDatadogToFargateTaskProps) : Bool :=
  jsTruthy (props.agent.bind (fun a => a.enabled))

/-- Truthiness of `props.fireLensLogging?.enabled`. -/
def firelensEnabledB (props : AddDatadogToFargateTaskProps) : Bool :=
  jsTruthy (props.fireLensLogging.bind (fun f => f.enabled))

/-- Getter for `props.agent?.apm?.applicationEnvVars`. -/
def apmAppEnvVarsOpt (props : AddDatadogToFargateTaskProps) :
    Option DatadogFargateApmApplicationEnvVarsProps :=
  (apmOpt props).bind (fun m => m.applicationEnvVars)

/-- Getter for `props.agent?.statsd?.applicationEnvVars`. -/
def statsdAppEnvVarsOpt (props : AddDatadogToFargateTaskProps) :
    Option DatadogFargateStatsdApplicationEnvVarsProps :=
  (statsdOpt props).bind (fun m => m.applicationEnvVars)

/-- Getter for `props.agent?.apm?.applicationEnvVars?.doNotSet`. -/
def apmDoNotSetOpt (props : AddDatadogToFargateTaskProps) : Option Bool :=
  (apmAppEnvVarsOpt props).bind (fun e => e.doNotSet)

/-- Getter for `props.agent?.statsd?.applicationEnvVars?.doNotSet`. -/
def statsdDoNotSetOpt (props : AddDatadogToFargateTaskProps) : Option Bool :=
  (statsdAppEnvVarsOpt props).bind (fun e => e.doNotSet)

/-- Condition of line 334: `props.agent?.apm?.enabled &&
props.agent?.apm?.applicationEnvVars?.doNotSet !== true`. -/
def apmPropagationActive (props : AddDatadogToFargateTaskProps) : Bool :=
  jsTruthy ((apmOpt props).bind (fun m => m.enabled)) &&
    !(apmDoNotSetOpt props == some true)

/-- Condition of line 345: `props.agent?.statsd?.enabled &&
props.agent?.statsd?.applicationEnvVars?.doNotSet !== true`. -/
def statsdPropagationActive (props : AddDatadogToFargateTaskProps) : Bool :=
  jsTruthy ((statsdOpt props).bind (fun m => m.enabled)) &&
    !(statsdDoNotSetOpt props == some true)

/-- Resolves `props.agent?.apm.applicationEnvVars?.apmTraceEnabledEnvVarName ??
'DD_TRACE_ENABLED'`. -/
def apmTraceEnabledName (props : AddDatadogToFargateTaskProps) : String :=
  ((apmAppEnvVarsOpt props).bind (fun e => e.apmTraceEnabledEnvVarName)).getD "DD_TRACE_ENABLED"

/-- Resolves `props.agent?.apm.applicationEnvVars?.apmHostEnvVarName ??
'DD_AGENT_HOST'`. -/
def apmHostName (props : AddDatadogToFargateTaskProps) : String :=
  ((apmAppEnvVarsOpt props).bind (fun e => e.apmHostEnvVarName)).getD "DD_AGENT_HOST"

/-- Resolves `props.agent?.apm.applicationEnvVars?.apmPortEnvVarName ??
'DD_TRACE_AGENT_PORT'`. -/
def apmPortName (props : AddDatadogToFargateTaskProps) : String :=
  ((apmAppEnvVarsOpt props).bind (fun e => e.apmPortEnvVarName)).getD "DD_TRACE_AGENT_PORT"

/-- Resolves `String(props.agent?.apm?.port ?? '8126')`. -/
def apmPortString (props : AddDatadogToFargateTaskProps) : String :=
  numOrStr ((apmOpt props).bind (fun m => m.port)) "8126"

/-- Resolves `props.agent?.statsd?.applicationEnvVars?.statsdHostEnvVarName ??
'STATSD_HOST'`. -/
def statsdHostName (props : AddDatadogToFargateTaskProps) : String :=
  ((statsdAppEnvVarsOpt props).bind (fun e => e.statsdHostEnvVarName)).getD "STATSD_HOST"

/-- Resolves `props.agent?.statsd?.applicationEnvVars?.statsdPortEnvVarName ??
'STATSD_PORT'`. -/
def statsdPortName (props : AddDatadogToFargateTaskProps) : String :=
  ((statsdAppEnvVarsOpt props).bind (fun e => e.statsdPortEnvVarName)).getD "STATSD_PORT"

/-- Resolves `String(props.agent?.statsd?.port ?? '8125')`. -/
def statsdPortString (props : AddDatadogToFargateTaskProps) : String :=
  numOrStr ((statsdOpt props).bind (fun m => m.port)) "8125"

/-- The `environment` object literal of the agent container
(lines 304-328): fixed markers, APM pair or disabled flag, StatsD pair
or disabled flag, and a `DD_TAGS` entry when a tag mapping is present
(any present object, even empty, is truthy). -/
def agentEnvironment (props : AddDatadogToFargateTaskProps) : List (String × String) :=
  [("ECS_FARGATE", "true"),
   ("DD_SITE", props.datadogSite.getD "datadoghq.com")]
  ++ (if jsTruthy ((apmOpt props).bind (fun m => m.enabled)) then
        [("DD_APM_ENABLED", "true"),
         ("DD_APM_RECEIVER_PORT", apmPortString props)]
      else [("DD_APM_ENABLED", "false")])
  ++ (if jsTruthy ((statsdOpt props).bind (fun m => m.enabled)) then
        [("DD_USE_DOGSTATSD", "true"),
         ("DD_DOGSTATSD_PORT", statsdPortString props)]
      else [("DD_USE_DOGSTATSD", "false")])
  ++ (match props.agent.bind (fun a => a.tags) with
      | some tags => [("DD_TAGS", formatTags tags " ")]
      | none => [])

/-- The container definition passed to `task.addContainer('datadog-agent', ...)`
(lines 289-332).  Note: the conditional spread tests truthiness of
`props.agent?.cpu` but spreads `cpu: props.fireLensLogging?.cpu`,
exactly as in the source. -/
def agentContainerDef (props : AddDatadogToFargateTaskProps) : ContainerDef :=
  { containerName := "datadog-agent"
    image :=
      match props.agent.bind (fun a => a.image) with
      | some img => img
      | none =>
        ContainerImage.fromRegistry
          ("public.ecr.aws/datadog/agent:" ++ ((props.agent.bind (fun a => a.imageTag)).getD "latest"))
    memoryLimitMiB := some ((props.agent.bind (fun a => a.memoryLimitMiB)).getD 256)
    cpu :=
      if jsTruthyNat (props.agent.bind (fun a => a.cpu))
      then props.fireLensLogging.bind (fun f => f.cpu)
      else none
    environment := agentEnvironment props
    secrets := [("DD_API_KEY", props.datadogApiKeySecret)]
    logging :=
      if jsTruthy (props.agent.bind (fun a => a.logToCloudWatch))
      then some (LogDriverSetting.awsLogs "datadog-agent")
      else none
    firelensConfig := none
    logDriverConfig := none }

/-- The container definition passed to
`task.addFirelensLogRouter('log_router', ...)` (lines 357-371). -/
def firelensRouterDef (props : AddDatadogToFargateTaskProps) : ContainerDef :=
  { containerName := "log_router"
    image :=
      match props.fireLensLogging.bind (fun f => f.image) with
      | some img => img
      | none =>
        ContainerImage.fromRegistry
          ("public.ecr.aws/aws-observability/aws-for-fluent-bit:" ++
            ((props.fireLensLogging.bind (fun f => f.imageTag)).getD "latest"))
    memoryLimitMiB := some ((props.fireLensLogging.bind (fun f => f.memoryLimitMiB)).getD 256)
    cpu :=
      if jsTruthyNat (props.fireLensLogging.bind (fun f => f.cpu))
      then props.fireLensLogging.bind (fun f => f.cpu)
      else none
    environment := []
    secrets := []
    logging := none
    firelensConfig := some { routerType := "fluentbit", enableECSLogMetadata := true }
    logDriverConfig := none }

/-- The `options` object of `ecs.LogDrivers.firelens` (lines 374-395):
fixed entries, then conditional `dd_service`, `dd_source` (string
truthiness: absent or empty strings are falsy) and `dd_tags` (any
present object is truthy). -/
def firelensLogDriverOptions (props : AddDatadogToFargateTaskProps) : List (String × String) :=
  [("Name", "datadog"),
   ("Host", "http-intake.logs." ++ props.datadogSite.getD "datadoghq.com"),
   ("TLS", "on"),
   ("provider", "ecs"),
   ("dd_message_key", "log")]
  ++ (match props.fireLensLogging.bind (fun f => f.service) with
      | some s => if s != "" then [("dd_service", s)] else []
      | none => [])
  ++ (match props.fireLensLogging.bind (fun f => f.source) with
      | some s => if s != "" then [("dd_source", s)] else []
      | none => [])
  ++ (match props.fireLensLogging.bind (fun f => f.tags) with
      | some tags => [("dd_tags", formatTags tags ",")]
      | none => [])

/-- The log driver configuration produced by binding the firelens log
driver of lines 373-399 onto a container. -/
def firelensLogDriverConfig (props : AddDatadogToFargateTaskProps) : LogDriverConfig :=
  { logDriver := "awsfirelens"
    options := firelensLogDriverOptions props
    secretOptions := [("apikey", props.datadogApiKeySecret)] }

/-- The three `addEnvironment` writes of the APM propagation loop body
(lines 338-340), on an environment mapping. -/
def apmEnvWrites (props : AddDatadogToFargateTaskProps)
    (env : List (String × String)) : List (String × String) :=
  setEnv (setEnv (setEnv env (apmTraceEnabledName props) "true")
    (apmHostName props) "localhost")
    (apmPortName props) (apmPortString props)

/-- The APM propagation loop body applied to a container. -/
def apmAddEnv (props : AddDatadogToFargateTaskProps) (c : ContainerDef) : ContainerDef :=
  { c with environment := apmEnvWrites props c.environment }

/-- The two `addEnvironment` writes of the StatsD propagation loop body
(lines 349-350), on an environment mapping. -/
def statsdEnvWrites (props : AddDatadogToFargateTaskProps)
    (env : List (String × String)) : List (String × String) :=
  setEnv (setEnv env (statsdHostName props) "localhost")
    (statsdPortName props) (statsdPortString props)

/-- The StatsD propagation loop body applied to a container. -/
def statsdAddEnv (props : AddDatadogToFargateTaskProps) (c : ContainerDef) : ContainerDef :=
  { c with environment := statsdEnvWrites props c.environment }

/-- The guarded propagation loops (lines 335-342 and 346-352): for each
snapshotted name look up the live container and, only if found, apply
the loop body to it. -/
def propagateEnvLoop (f : ContainerDef → ContainerDef) :
    List String → List ContainerDef → List ContainerDef
  | [], cs => cs
  | n :: ns, cs =>
    match cs.find? (fun c => c.containerName == n) with
    | some _ => propagateEnvLoop f ns (updateFirst f n cs)
    | none => propagateEnvLoop f ns cs

/-- The firelens log-driver binding loop (lines 401-406): for each
snapshotted name look up the live container and assign
`container.logDriverConfig` with no undefined-guard; a missing
container raises a TypeError that propagates, keeping the assignments
already made. -/
def bindLogDriverLoop (cfg : LogDriverConfig) :
    List String → List ContainerDef → List ContainerDef × Option JsError
  | [], cs => (cs, none)
  | n :: ns, cs =>
    match cs.find? (fun c => c.containerName == n) with
    | some _ =>
      bindLogDriverLoop cfg ns (updateFirst (fun c => { c with logDriverConfig := some cfg }) n cs)
    | none => (cs, some JsError.typeError)

/-- The agent block of `addDatadogToFargateTask` (lines 288-354):
insert the agent container, then run the APM and StatsD propagation
loops over the snapshotted names.  A duplicate-name error from
`addContainer` propagates with the task unchanged. -/
def agentPhase (task : TaskDefinition) (props : AddDatadogToFargateTaskProps)
    (containerNames : List String) : TaskDefinition × Option JsError :=
  if agentEnabledB props then
    match task.addContainer (agentContainerDef props) with
    | (t, some e) => (t, some e)
    | (t1, none) =>
      let t2 :=
        if apmPropagationActive props
        then { containers := propagateEnvLoop (apmAddEnv props) containerNames t1.containers }
        else t1
      let t3 :=
        if statsdPropagationActive props
        then { containers := propagateEnvLoop (statsdAddEnv props) containerNames t2.containers }
        else t2
      (t3, none)
  else (task, none)

/-- The firelens block of `addDatadogToFargateTask` (lines 356-407):
insert the log router, build the log driver, and bind it onto every
snapshotted container. -/
def firelensPhase (t : TaskDefinition) (props : AddDatadogToFargateTaskProps)
    (containerNames : List String) : TaskDefinition × Option JsError :=
  if firelensEnabledB props then
    match t.addContainer (firelensRouterDef props) with
    | (t4, some e) => (t4, some e)
    | (t4, none) =>
      let r := bindLogDriverLoop (firelensLogDriverConfig props) containerNames t4.containers
      ({ containers := r.1 }, r.2)
  else (t, none)

/-- Embeds `addDatadogToFargateTask` (lines 279-408): snapshot the container
names, run the agent block, then the firelens block.  A thrown
collaborator error stops execution and is returned along with the task
state reached so far. -/
def addDatadogToFargateTask (task : TaskDefinition) (props : AddDatadogToFargateTaskProps) :
    TaskDefinition × Option JsError :=
  let containerNames := task.containers.map (fun c => c.containerName)
  match agentPhase task props containerNames with
  | (t, some e) => (t, some e)
  | (t, none) => firelensPhase t props containerNames

/-- The name-and-environment view of a container list, used to state
frame properties about environment variables. -/
def envView (cs : List ContainerDef) : List (String × List (String × String)) :=
  cs.map (fun c => (c.containerName, c.environment))

/-! ### Basic reduction lemmas -/

theorem agentContainerDef_name (props : AddDatadogToFargateTaskProps) :
    (agentContainerDef props).containerName = "datadog-agent" := rfl

theorem firelensRouterDef_name (props : AddDatadogToFargateTaskProps) :
    (firelensRouterDef props).containerName = "log_router" := rfl

theorem apmAddEnv_name (props : AddDatadogToFargateTaskProps) (c : ContainerDef) :
    (apmAddEnv props c).containerName = c.containerName := rfl

theorem statsdAddEnv_name (props : AddDatadogToFargateTaskProps) (c : ContainerDef) :
    (statsdAddEnv props c).containerName = c.containerName := rfl

/-! ### List helper lemmas -/

theorem take_len_append {α : Type} (n : Nat) (l1 l2 : List α) (h : n = l1.length) :
    (l1 ++ l2).take n = l1 := by
  subst h; simp

theorem lookup_append_right {α β : Type} [BEq α] (a : α) (l1 l2 : List (α × β))
    (h : ∀ p ∈ l1, (a == p.1) = false) : List.lookup a (l1 ++ l2) = List.lookup a l2 := by
  induction l1 with
  | nil => rfl
  | cons p l1 ih =>
    have hp := h p (List.mem_cons_self p l1)
    simp only [List.cons_append, List.lookup, hp]
    exact ih (fun q hq => h q (List.mem_cons_of_mem p hq))

/-! ### updateFirst lemmas -/

theorem updateFirst_map_name (f : ContainerDef → ContainerDef)
    (hf : ∀ c, (f c).containerName = c.containerName) (n : String) (cs : List ContainerDef) :
    (updateFirst f n cs).map (fun c => c.containerName) = cs.map (fun c => c.containerName) := by
  induction cs with
  | nil => rfl
  | cons c cs ih =>
    unfold updateFirst
    by_cases h : (c.containerName == n) = true
    · simp [h, hf]
    · simp only [h]
      simp [ih]

theorem updateFirst_envView (f : ContainerDef → ContainerDef)
    (hf1 : ∀ c, (f c).containerName = c.containerName)
    (hf2 : ∀ c, (f c).environment = c.environment) (n : String) (cs : List ContainerDef) :
    envView (updateFirst f n cs) = envView cs := by
  induction cs with
  | nil => rfl
  | cons c cs ih =>
    unfold updateFirst
    split
    · simp [envView, hf1, hf2]
    · simp only [envView, List.map_cons]
      simp only [envView] at ih
      rw [ih]

theorem updateFirst_append (f : ContainerDef → ContainerDef) (n : String)
    (trailing : List ContainerDef) :
    ∀ as : List ContainerDef, as.find? (fun c => c.containerName == n) = none →
      updateFirst f n (as ++ trailing) = as ++ updateFirst f n trailing := by
  intro as
  induction as with
  | nil => intro _; rfl
  | cons a as ih =>
    intro h
    have hall := List.find?_eq_none.mp h
    have hpa : (a.containerName == n) = false := by
      simpa using hall a (List.mem_cons_self a as)
    have htail : as.find? (fun c => c.containerName == n) = none :=
      List.find?_eq_none.mpr (fun x hx => hall x (List.mem_cons_of_mem a hx))
    simp only [List.cons_append, updateFirst, hpa]
    simp [ih htail]

/-! ### Loop lemmas -/

theorem bindLogDriverLoop_envView (cfg : LogDriverConfig) (ns : List String) :
    ∀ cs : List ContainerDef, envView (bindLogDriverLoop cfg ns cs).1 = envView cs := by
  induction ns with
  | nil => intro cs; rfl
  | cons n ns ih =>
    intro cs
    unfold bindLogDriverLoop
    cases h : cs.find? (fun c => c.containerName == n) with
    | none => rfl
    | some c =>
      rw [ih]
      exact updateFirst_envView (fun c => { c with logDriverConfig := some cfg })
        (fun _ => rfl) (fun _ => rfl) n cs

theorem bindLogDriverLoop_map_name (cfg : LogDriverConfig) (ns : List String) :
    ∀ cs : List ContainerDef,
      ((bindLogDriverLoop cfg ns cs).1).map (fun c => c.containerName)
        = cs.map (fun c => c.containerName) := by
  induction ns with
  | nil => intro cs; rfl
  | cons n ns ih =>
    intro cs
    unfold bindLogDriverLoop
    cases h : cs.find? (fun c => c.containerName == n) with
    | none => rfl
    | some c =>
      rw [ih]
      exact updateFirst_map_name (fun c => { c with logDriverConfig := some cfg })
        (fun _ => rfl) n cs

theorem propagateEnvLoop_map_name (f : ContainerDef → ContainerDef)
    (hf : ∀ c, (f c).containerName = c.containerName) (ns : List String) :
    ∀ cs : List ContainerDef,
      (propagateEnvLoop f ns cs).map (fun c => c.containerName)
        = cs.map (fun c => c.containerName) := by
  induction ns with
  | nil => intro cs; rfl
  | cons n ns ih =>
    intro cs
    unfold propagateEnvLoop
    cases h : cs.find? (fun c => c.containerName == n) with
    | none => exact ih cs
    | some c =>
      rw [ih]
      exact updateFirst_map_name f hf n cs

theorem propagateEnvLoop_append_frame (f : ContainerDef → ContainerDef) :
    ∀ (ns : List String) (as cs : List ContainerDef),
      (∀ n ∈ ns, as.find? (fun c => c.containerName == n) = none) →
      propagateEnvLoop f ns (as ++ cs) = as ++ propagateEnvLoop f ns cs := by
  intro ns
  induction ns with
  | nil => intro as cs _; rfl
  | cons n ns ih =>
    intro as cs h
    have hn : as.find? (fun c => c.containerName == n) = none := h n (List.mem_cons_self n ns)
    have htail : ∀ m ∈ ns, as.find? (fun c => c.containerName == m) = none :=
      fun m hm => h m (List.mem_cons_of_mem n hm)
    have hfind : (as ++ cs).find? (fun c => c.containerName == n)
        = cs.find? (fun c => c.containerName == n) := by
      simp [List.find?_append, hn]
    unfold propagateEnvLoop
    rw [hfind]
    cases hc : cs.find? (fun c => c.containerName == n) with
    | none => exact ih as cs htail
    | some c =>
      rw [updateFirst_append f n cs as hn]
      exact ih as (updateFirst f n cs) htail

theorem propagateEnvLoop_eq (f : ContainerDef → ContainerDef)
    (hf : ∀ c, (f c).containerName = c.containerName) :
    ∀ (cs ds : List ContainerDef),
      ((cs.map fun c => c.containerName)).Nodup →
      propagateEnvLoop f (cs.map fun c => c.containerName) (cs ++ ds) = cs.map f ++ ds := by
  intro cs
  induction cs with
  | nil => intro ds _; rfl
  | cons c cs ih =>
    intro ds hnd
    simp only [List.map_cons] at hnd
    obtain ⟨hmem, hnd'⟩ := List.nodup_cons.mp hnd
    simp only [List.map_cons, List.cons_append]
    unfold propagateEnvLoop
    have hfind : (c :: (cs ++ ds)).find? (fun d => d.containerName == c.containerName)
        = some c := by
      simp [List.find?]
    rw [hfind]
    have hupd : updateFirst f c.containerName (c :: (cs ++ ds)) = f c :: (cs ++ ds) := by
      simp [updateFirst]
    rw [hupd]
    have hframe : propagateEnvLoop f (cs.map fun d => d.containerName) ([f c] ++ (cs ++ ds))
        = [f c] ++ propagateEnvLoop f (cs.map fun d => d.containerName) (cs ++ ds) :=
      propagateEnvLoop_append_frame f (cs.map fun d => d.containerName) [f c] (cs ++ ds)
        (fun m hm => by
          have hne : m ≠ c.containerName := fun he => hmem (he ▸ hm)
          have hb : ((f c).containerName == m) = false := by
            rw [hf c]
            exact beq_eq_false_iff_ne.mpr (fun he => hne he.symm)
          simp [List.find?, hb])
    have hframe' : propagateEnvLoop f (cs.map fun d => d.containerName) (f c :: (cs ++ ds))
        = f c :: propagateEnvLoop f (cs.map fun d => d.containerName) (cs ++ ds) := hframe
    rw [hframe', ih ds hnd']

/-! ### Phase lemmas -/

theorem agentPhase_disabled (task : TaskDefinition) (props : AddDatadogToFargateTaskProps)
    (ns : List String) (h : agentEnabledB props = false) :
    agentPhase task props ns = (task, none) := by
  simp [agentPhase, h]

theorem agentPhase_dup (task : TaskDefinition) (props : AddDatadogToFargateTaskProps)
    (ns : List String) (hE : agentEnabledB props = true)
    (hdup : "datadog-agent" ∈ task.containers.map (fun c => c.containerName)) :
    agentPhase task props ns = (task, some (JsError.duplicateConstruct "datadog-agent")) := by
  have hany : task.containers.any
      (fun d => d.containerName == "datadog-agent") = true := by
    rw [List.any_eq_true]
    obtain ⟨c, hc, hcn⟩ := List.mem_map.mp hdup
    exact ⟨c, hc, by simp [hcn]⟩
  have hadd : task.addContainer (agentContainerDef props)
      = (task, some (JsError.duplicateConstruct "datadog-agent")) := by
    unfold TaskDefinition.addContainer
    rw [agentContainerDef_name]
    rw [if_pos hany]
  simp only [agentPhase, hE, hadd]
  rfl

theorem agentPhase_ok (task : TaskDefinition) (props : AddDatadogToFargateTaskProps)
    (hE : agentEnabledB props = true)
    (hfresh : "datadog-agent" ∉ task.containers.map (fun c => c.containerName))
    (hnodup : (task.containers.map (fun c => c.containerName)).Nodup) :
    agentPhase task props (task.containers.map (fun c => c.containerName))
      = ({ containers :=
            task.containers.map (fun c =>
              (if statsdPropagationActive props then statsdAddEnv props else id)
                ((if apmPropagationActive props then apmAddEnv props else id) c))
            ++ [agentContainerDef props] }, none) := by
  have hany : task.containers.any
      (fun d => d.containerName == (agentContainerDef props).containerName) = false := by
    rw [agentContainerDef_name]
    rw [List.any_eq_false]
    intro c hc
    intro hb
    exact hfresh (List.mem_map.mpr ⟨c, hc, by simpa using hb⟩)
  have hadd : task.addContainer (agentContainerDef props)
      = ({ containers := task.containers ++ [agentContainerDef props] }, none) := by
    simp [TaskDefinition.addContainer, hany]
  have hapm : propagateEnvLoop (apmAddEnv props) (task.containers.map fun c => c.containerName)
      (task.containers ++ [agentContainerDef props])
      = task.containers.map (apmAddEnv props) ++ [agentContainerDef props] :=
    propagateEnvLoop_eq (apmAddEnv props) (apmAddEnv_name props) task.containers _ hnodup
  have hstatsd0 : propagateEnvLoop (statsdAddEnv props)
      (task.containers.map fun c => c.containerName)
      (task.containers ++ [agentContainerDef props])
      = task.containers.map (statsdAddEnv props) ++ [agentContainerDef props] :=
    propagateEnvLoop_eq (statsdAddEnv props) (statsdAddEnv_name props) task.containers _ hnodup
  have hmapname : task.containers.map (fun c => c.containerName)
      = (task.containers.map (apmAddEnv props)).map (fun c => c.containerName) := by
    rw [List.map_map]
    rfl
  have hstatsd1 : propagateEnvLoop (statsdAddEnv props)
      (task.containers.map fun c => c.containerName)
      (task.containers.map (apmAddEnv props) ++ [agentContainerDef props])
      = (task.containers.map (apmAddEnv props)).map (statsdAddEnv props)
        ++ [agentContainerDef props] := by
    rw [hmapname]
    exact propagateEnvLoop_eq (statsdAddEnv props) (statsdAddEnv_name props)
      (task.containers.map (apmAddEnv props)) _ (by rw [← hmapname]; exact hnodup)
  by_cases happ : apmPropagationActive props = true <;>
    by_cases hstat : statsdPropagationActive props = true <;>
      simp [agentPhase, hE, hadd, happ, hstat, hapm, hstatsd0, hstatsd1, List.map_map,
        Function.comp]

theorem firelensPhase_envView (t : TaskDefinition) (props : AddDatadogToFargateTaskProps)
    (ns : List String) :
    ∃ suf, envView (firelensPhase t props ns).1.containers = envView t.containers ++ suf ∧
      ∀ s ∈ suf, s.1 = "log_router" := by
  by_cases hF : firelensEnabledB props = true
  · by_cases hdup : t.containers.any
        (fun d => d.containerName == (firelensRouterDef props).containerName) = true
    · refine ⟨[], ?_, by simp⟩
      simp [firelensPhase, hF, TaskDefinition.addContainer, hdup]
    · rw [Bool.not_eq_true] at hdup
      refine ⟨[("log_router", [])], ?_, by simp⟩
      have hbind := bindLogDriverLoop_envView (firelensLogDriverConfig props) ns
        (t.containers ++ [firelensRouterDef props])
      simp only [firelensPhase, hF, if_true, TaskDefinition.addContainer, hdup]
      simp only [Bool.false_eq_true, if_false]
      rw [hbind]
      simp [envView, firelensRouterDef_name]
      rfl
  · rw [Bool.not_eq_true] at hF
    exact ⟨[], by simp [firelensPhase, hF], by simp⟩

theorem maybeWrites_name (props : AddDatadogToFargateTaskProps) (c : ContainerDef) :
    ((if statsdPropagationActive props then statsdAddEnv props else id)
      ((if apmPropagationActive props then apmAddEnv props else id) c)).containerName
      = c.containerName := by
  by_cases h1 : apmPropagationActive props = true <;>
    by_cases h2 : statsdPropagationActive props = true <;>
      simp [h1, h2, apmAddEnv, statsdAddEnv]

theorem maybeWrites_env (props : AddDatadogToFargateTaskProps) (c : ContainerDef) :
    ((if statsdPropagationActive props then statsdAddEnv props else id)
      ((if apmPropagationActive props then apmAddEnv props else id) c)).environment
      = (if statsdPropagationActive props then statsdEnvWrites props else id)
          ((if apmPropagationActive props then apmEnvWrites props else id) c.environment) := by
  by_cases h1 : apmPropagationActive props = true <;>
    by_cases h2 : statsdPropagationActive props = true <;>
      simp [h1, h2, apmAddEnv, statsdAddEnv]

theorem envView_fst (cs : List ContainerDef) :
    (envView cs).map Prod.fst = cs.map (fun c => c.containerName) := by
  simp [envView, List.map_map]

theorem addDatadog_eq (task : TaskDefinition) (props : AddDatadogToFargateTaskProps) :
    addDatadogToFargateTask task props
      = (match agentPhase task props (task.containers.map (fun c => c.containerName)) with
         | (t, some e) => (t, some e)
         | (t, none) => firelensPhase t props (task.containers.map (fun c => c.containerName))) :=
  rfl

/-- Master lemma: on the success path of the agent block, the
name-and-environment view of the resulting task is the snapshotted
containers with the active propagation writes applied, then the agent
container, then whatever the firelens block appended. -/
theorem result_envView (task : TaskDefinition) (props : AddDatadogToFargateTaskProps)
    (hE : agentEnabledB props = true)
    (hfresh : "datadog-agent" ∉ task.containers.map (fun c => c.containerName))
    (hnodup : (task.containers.map (fun c => c.containerName)).Nodup) :
    ∃ suf, envView (addDatadogToFargateTask task props).1.containers
        = task.containers.map (fun c => (c.containerName,
            (if statsdPropagationActive props then statsdEnvWrites props else id)
              ((if apmPropagationActive props then apmEnvWrites props else id) c.environment)))
          ++ ("datadog-agent", agentEnvironment props) :: suf := by
  rw [addDatadog_eq]
  rw [agentPhase_ok task props hE hfresh hnodup]
  obtain ⟨suf, hsuf, _⟩ := firelensPhase_envView
    { containers := task.containers.map (fun c =>
        (if statsdPropagationActive props then statsdAddEnv props else id)
          ((if apmPropagationActive props then apmAddEnv props else id) c))
      ++ [agentContainerDef props] } props (task.containers.map (fun c => c.containerName))
  refine ⟨suf, ?_⟩
  rw [show (match ((({ containers := task.containers.map (fun c =>
        (if statsdPropagationActive props then statsdAddEnv props else id)
          ((if apmPropagationActive props then apmAddEnv props else id) c))
      ++ [agentContainerDef props] } : TaskDefinition), (none : Option JsError))) with
    | (t, some e) => (t, some e)
    | (t, none) => firelensPhase t props (task.containers.map (fun c => c.containerName)))
    = firelensPhase
        { containers := task.containers.map (fun c =>
            (if statsdPropagationActive props then statsdAddEnv props else id)
              ((if apmPropagationActive props then apmAddEnv props else id) c))
          ++ [agentContainerDef props] } props
        (task.containers.map (fun c => c.containerName)) from rfl]
  rw [hsuf]
  simp only [envView, List.map_append, List.map_cons, List.map_nil, List.map_map]
  rw [List.append_assoc]
  congr 1
  apply List.map_congr_left
  intro c _
  exact Prod.ext (maybeWrites_name props c) (maybeWrites_env props c)

theorem agentPhase_mem (task : TaskDefinition) (props : AddDatadogToFargateTaskProps)
    (ns : List String) (hE : agentEnabledB props = true) :
    "datadog-agent" ∈ (agentPhase task props ns).1.containers.map (fun c => c.containerName) := by
  by_cases hdup : "datadog-agent" ∈ task.containers.map (fun c => c.containerName)
  · rw [agentPhase_dup task props ns hE hdup]
    exact hdup
  · have hany : task.containers.any (fun d => d.containerName == "datadog-agent") = false := by
      rw [List.any_eq_false]
      intro c hc hb
      exact hdup (List.mem_map.mpr ⟨c, hc, by simpa using hb⟩)
    have hadd : task.addContainer (agentContainerDef props)
        = ({ containers := task.containers ++ [agentContainerDef props] }, none) := by
      unfold TaskDefinition.addContainer
      rw [agentContainerDef_name]
      rw [if_neg (by simp [hany])]
    simp only [agentPhase, hE, if_true, hadd]
    by_cases happ : apmPropagationActive props = true <;>
      by_cases hstat : statsdPropagationActive props = true <;>
        simp only [happ, hstat, Bool.false_eq_true, if_true, if_false] <;>
          simp [propagateEnvLoop_map_name (apmAddEnv props) (apmAddEnv_name props),
            propagateEnvLoop_map_name (statsdAddEnv props) (statsdAddEnv_name props),
            agentContainerDef_name]

theorem firelensPhase_mem (t : TaskDefinition) (props : AddDatadogToFargateTaskProps)
    (ns : List String)
    (h : "datadog-agent" ∈ t.containers.map (fun c => c.containerName)) :
    "datadog-agent" ∈ (firelensPhase t props ns).1.containers.map (fun c => c.containerName) := by
  obtain ⟨suf, hsuf, _⟩ := firelensPhase_envView t props ns
  have hnames := congrArg (List.map Prod.fst) hsuf
  rw [envView_fst, List.map_append, envView_fst] at hnames
  rw [hnames]
  exact List.mem_append_left _ h

theorem serviceOpt_keys (props : AddDatadogToFargateTaskProps) (p : String × String)
    (hp : p ∈ (match props.fireLensLogging.bind (fun f => f.service) with
      | some s => if s != "" then [("dd_service", s)] else []
      | none => [])) : p.1 = "dd_service" := by
  cases h : props.fireLensLogging.bind (fun f => f.service) with
  | none =>
    simp only [h] at hp
    exact absurd hp (List.not_mem_nil p)
  | some s =>
    simp only [h] at hp
    by_cases hse : (s != "") = true
    · rw [if_pos hse] at hp
      rw [List.mem_singleton.mp hp]
    · rw [if_neg hse] at hp
      exact absurd hp (List.not_mem_nil p)

theorem sourceOpt_keys (props : AddDatadogToFargateTaskProps) (p : String × String)
    (hp : p ∈ (match props.fireLensLogging.bind (fun f => f.source) with
      | some s => if s != "" then [("dd_source", s)] else []
      | none => [])) : p.1 = "dd_source" := by
  cases h : props.fireLensLogging.bind (fun f => f.source) with
  | none =>
    simp only [h] at hp
    exact absurd hp (List.not_mem_nil p)
  | some s =>
    simp only [h] at hp
    by_cases hse : (s != "") = true
    · rw [if_pos hse] at hp
      rw [List.mem_singleton.mp hp]
    · rw [if_neg hse] at hp
      exact absurd hp (List.not_mem_nil p)

/-! ### Claim theorems -/

/-- C5: for every task and every configuration in which neither
`agent.enabled` nor `fireLensLogging.enabled` is truthy,
`addDatadogToFargateTask` returns the task unchanged, with no error: no
container is added and no existing container is modified. -/
theorem claim_C5_no_enablement_no_change (task : TaskDefinition)
    (props : AddDatadogToFargateTaskProps)
    (h1 : agentEnabledB props = false) (h2 : firelensEnabledB props = false) :
    addDatadogToFargateTask task props = (task, none) := by
  rw [addDatadog_eq, agentPhase_disabled task props _ h1]
  simp [firelensPhase, h2]

theorem claim_C5_witness :
    addDatadogToFargateTask { containers := [{ containerName := "app" }] }
      { datadogApiKeySecret := { id := 0 } }
      = ({ containers := [{ containerName := "app" }] }, none) :=
  claim_C5_no_enablement_no_change { containers := [{ containerName := "app" }] }
    { datadogApiKeySecret := { id := 0 } } rfl rfl

/-- C7: with the agent enabled, the agent container image resolves to
the fixed registry path concatenated with `imageTag` (default
`"latest"`) when no explicit image is configured, and to exactly the
explicit image otherwise (so `imageTag` has no effect then). -/
theorem claim_C7_image_resolution (props : AddDatadogToFargateTaskProps)
    (hE : agentEnabledB props = true) :
    (props.agent.bind (fun a => a.image) = none →
      (agentContainerDef props).image = ContainerImage.fromRegistry
        ("public.ecr.aws/datadog/agent:"
          ++ ((props.agent.bind (fun a => a.imageTag)).getD "latest"))) ∧
    (∀ img, props.agent.bind (fun a => a.image) = some img →
      (agentContainerDef props).image = img) := by
  constructor
  · intro h
    simp [agentContainerDef, h]
  · intro img h
    simp [agentContainerDef, h]

theorem claim_C7_witness :
    (agentContainerDef
      { datadogApiKeySecret := { id := 0 },
        agent := some { enabled := some true, imageTag := some "7.50.0" } }).image
      = ContainerImage.fromRegistry "public.ecr.aws/datadog/agent:7.50.0" ∧
    (agentContainerDef
      { datadogApiKeySecret := { id := 0 },
        agent := some { enabled := some true, image := some (ContainerImage.custom 7),
                        imageTag := some "ignored" } }).image
      = ContainerImage.custom 7 := by
  constructor
  · have h := (claim_C7_image_resolution
      { datadogApiKeySecret := { id := 0 },
        agent := some { enabled := some true, imageTag := some "7.50.0" } } rfl).1 rfl
    simpa using h
  · exact (claim_C7_image_resolution
      { datadogApiKeySecret := { id := 0 },
        agent := some { enabled := some true, image := some (ContainerImage.custom 7),
                        imageTag := some "ignored" } } rfl).2 (ContainerImage.custom 7) rfl

/-- C10: a configured cpu of 0 is falsy in the conditional spread, so
the corresponding container definition carries no cpu value at all
(for the agent container and the firelens router container alike). -/
theorem claim_C10_zero_cpu_unset (props : AddDatadogToFargateTaskProps) :
    (props.agent.bind (fun a => a.cpu) = some 0 → (agentContainerDef props).cpu = none) ∧
    (props.fireLensLogging.bind (fun f => f.cpu) = some 0 →
      (firelensRouterDef props).cpu = none) := by
  constructor
  · intro h
    simp [agentContainerDef, jsTruthyNat, h]
  · intro h
    simp [firelensRouterDef, jsTruthyNat, h]

theorem claim_C10_witness :
    (agentContainerDef
      { datadogApiKeySecret := { id := 0 },
        agent := some { enabled := some true, cpu := some 0 } }).cpu = none ∧
    (firelensRouterDef
      { datadogApiKeySecret := { id := 0 },
        fireLensLogging := some { enabled := some true, cpu := some 0 } }).cpu = none :=
  ⟨(claim_C10_zero_cpu_unset
      { datadogApiKeySecret := { id := 0 },
        agent := some { enabled := some true, cpu := some 0 } }).1 rfl,
   (claim_C10_zero_cpu_unset
      { datadogApiKeySecret := { id := 0 },
        fireLensLogging := some { enabled := some true, cpu := some 0 } }).2 rfl⟩

/-- C2 (evidence for the cpu copy-paste bug): with `agent.cpu = 512`
configured, the agent container definition carries
`fireLensLogging.cpu` (64 here, absent when firelens is unset) rather
than the configured 512 — the conditional tests `agent.cpu` but
spreads `fireLensLogging.cpu`. -/
theorem claim_C2_cpu_bug_eval :
    (agentContainerDef
      { datadogApiKeySecret := { id := 0 },
        agent := some { enabled := some true, cpu := some 512 },
        fireLensLogging := some { cpu := some 64 } }).cpu = some 64 ∧
    (agentContainerDef
      { datadogApiKeySecret := { id := 0 },
        agent := some { enabled := some true, cpu := some 512 } }).cpu = none :=
  ⟨rfl, rfl⟩

/-- C3 counterexample: on a singleton tag mapping both separators
produce the same string, refuting "the two serializations of the same
mapping T are different strings" for every mapping T. -/
theorem claim_C3_counterexample :
    formatTags [("a", "b")] " " = formatTags [("a", "b")] "," := rfl

/-- C3 (amended): the agent flattening joins `key:value` pairs with a
single space (the `DD_TAGS` entry), the firelens flattening joins them
with a comma (the `dd_tags` option), and the two serializations differ
whenever the mapping has at least two pairs (for zero or one pair they
coincide). -/
theorem claim_C3_tag_separators (props : AddDatadogToFargateTaskProps)
    (T : List (String × String)) :
    (props.agent.bind (fun a => a.tags) = some T →
      List.lookup "DD_TAGS" (agentEnvironment props) = some (formatTags T " ")) ∧
    (props.fireLensLogging.bind (fun f => f.tags) = some T →
      List.lookup "dd_tags" (firelensLogDriverOptions props) = some (formatTags T ",")) ∧
    (2 ≤ T.length → formatTags T " " ≠ formatTags T ",") := by
  refine ⟨?_, ?_, ?_⟩
  · intro h
    by_cases h1 : jsTruthy ((apmOpt props).bind (fun m => m.enabled)) = true <;>
      by_cases h2 : jsTruthy ((statsdOpt props).bind (fun m => m.enabled)) = true <;>
        simp [agentEnvironment, h, h1, h2, List.lookup]
  · intro h
    have hkeys : ∀ p ∈ (([("Name", "datadog"),
        ("Host", "http-intake.logs." ++ props.datadogSite.getD "datadoghq.com"),
        ("TLS", "on"), ("provider", "ecs"), ("dd_message_key", "log")]
        ++ (match props.fireLensLogging.bind (fun f => f.service) with
            | some s => if s != "" then [("dd_service", s)] else []
            | none => []))
        ++ (match props.fireLensLogging.bind (fun f => f.source) with
            | some s => if s != "" then [("dd_source", s)] else []
            | none => [])), ("dd_tags" == p.1) = false := by
      intro p hp
      rcases List.mem_append.mp hp with hp | hp
      · rcases List.mem_append.mp hp with hp | hp
        · simp only [List.mem_cons, List.not_mem_nil, or_false] at hp
          rcases hp with rfl | rfl | rfl | rfl | rfl <;> rfl
        · rw [serviceOpt_keys props p hp]
          rfl
      · rw [sourceOpt_keys props p hp]
        rfl
    have hsplit : firelensLogDriverOptions props
        = (([("Name", "datadog"),
            ("Host", "http-intake.logs." ++ props.datadogSite.getD "datadoghq.com"),
            ("TLS", "on"), ("provider", "ecs"), ("dd_message_key", "log")]
            ++ (match props.fireLensLogging.bind (fun f => f.service) with
                | some s => if s != "" then [("dd_service", s)] else []
                | none => []))
            ++ (match props.fireLensLogging.bind (fun f => f.source) with
                | some s => if s != "" then [("dd_source", s)] else []
                | none => []))
          ++ [("dd_tags", formatTags T ",")] := by
      simp only [firelensLogDriverOptions, h]
    rw [hsplit, lookup_append_right "dd_tags" _ _ hkeys]
    rfl
  · intro hlen heq
    match T, hlen with
    | p :: q :: rest, _ =>
      simp only [formatTags, List.map_cons, joinWithSep] at heq
      have h2 := congrArg String.data heq
      simp [String.data_append] at h2

theorem claim_C3_witness :
    List.lookup "DD_TAGS" (agentEnvironment
      { datadogApiKeySecret := { id := 0 },
        agent := some { enabled := some true, tags := some [("a", "b"), ("c", "d")] } })
      = some (formatTags [("a", "b"), ("c", "d")] " ") ∧
    List.lookup "dd_tags" (firelensLogDriverOptions
      { datadogApiKeySecret := { id := 0 },
        fireLensLogging := some { enabled := some true,
                                  tags := some [("a", "b"), ("c", "d")] } })
      = some (formatTags [("a", "b"), ("c", "d")] ",") ∧
    formatTags [("a", "b"), ("c", "d")] " " ≠ formatTags [("a", "b"), ("c", "d")] "," :=
  ⟨(claim_C3_tag_separators
      { datadogApiKeySecret := { id := 0 },
        agent := some { enabled := some true, tags := some [("a", "b"), ("c", "d")] } }
      [("a", "b"), ("c", "d")]).1 rfl,
   (claim_C3_tag_separators
      { datadogApiKeySecret := { id := 0 },
        fireLensLogging := some { enabled := some true,
                                  tags := some [("a", "b"), ("c", "d")] } }
      [("a", "b"), ("c", "d")]).2.1 rfl,
   (claim_C3_tag_separators { datadogApiKeySecret := { id := 0 } }
      [("a", "b"), ("c", "d")]).2.2 (by decide)⟩

/-- C4 (amended): on a snapshotted name that no longer resolves, the
APM and StatsD propagation loops skip the name and continue without
error, while the firelens binding loop dereferences the missing
container and fails with a TypeError. -/
theorem claim_C4_missing_container (props : AddDatadogToFargateTaskProps)
    (cfg : LogDriverConfig) (n : String) (ns : List String) (cs : List ContainerDef)
    (h : cs.find? (fun c => c.containerName == n) = none) :
    propagateEnvLoop (apmAddEnv props) (n :: ns) cs
      = propagateEnvLoop (apmAddEnv props) ns cs ∧
    propagateEnvLoop (statsdAddEnv props) (n :: ns) cs
      = propagateEnvLoop (statsdAddEnv props) ns cs ∧
    bindLogDriverLoop cfg (n :: ns) cs = (cs, some JsError.typeError) := by
  refine ⟨?_, ?_, ?_⟩ <;> simp only [propagateEnvLoop, bindLogDriverLoop, h]

/-- C4 counterexample: the firelens binding loop raises a TypeError on
a missing snapshotted container instead of skipping it. -/
theorem claim_C4_counterexample :
    (bindLogDriverLoop { logDriver := "awsfirelens", options := [], secretOptions := [] }
      ["app"] []).2 = some JsError.typeError := rfl

theorem claim_C4_witness :
    propagateEnvLoop (apmAddEnv { datadogApiKeySecret := { id := 0 } }) ["ghost"] []
      = propagateEnvLoop (apmAddEnv { datadogApiKeySecret := { id := 0 } }) [] [] ∧
    propagateEnvLoop (statsdAddEnv { datadogApiKeySecret := { id := 0 } }) ["ghost"] []
      = propagateEnvLoop (statsdAddEnv { datadogApiKeySecret := { id := 0 } }) [] [] ∧
    bindLogDriverLoop { logDriver := "awsfirelens", options := [], secretOptions := [] }
      ["ghost"] [] = ([], some JsError.typeError) :=
  claim_C4_missing_container { datadogApiKeySecret := { id := 0 } }
    { logDriver := "awsfirelens", options := [], secretOptions := [] } "ghost" [] [] rfl

/-- C9: with the agent enabled, a second invocation on the task
produced by a first invocation always fails with the duplicate
construct id error for "datadog-agent" raised by `addContainer` and
propagated uncaught, and the second invocation leaves the task exactly
as the first invocation left it (no rollback). -/
theorem claim_C9_double_invocation (task : TaskDefinition)
    (props : AddDatadogToFargateTaskProps) (hE : agentEnabledB props = true) :
    addDatadogToFargateTask (addDatadogToFargateTask task props).1 props
      = ((addDatadogToFargateTask task props).1,
         some (JsError.duplicateConstruct "datadog-agent")) := by
  have hmem : "datadog-agent"
      ∈ (addDatadogToFargateTask task props).1.containers.map (fun c => c.containerName) := by
    rw [addDatadog_eq]
    cases hp : agentPhase task props (task.containers.map (fun c => c.containerName)) with
    | mk t e =>
      cases e with
      | none =>
        have h1 : "datadog-agent" ∈ t.containers.map (fun c => c.containerName) := by
          have h0 := agentPhase_mem task props (task.containers.map (fun c => c.containerName)) hE
          rw [hp] at h0
          exact h0
        exact firelensPhase_mem t props (task.containers.map (fun c => c.containerName)) h1
      | some e =>
        have h0 := agentPhase_mem task props (task.containers.map (fun c => c.containerName)) hE
        rw [hp] at h0
        exact h0
  rw [addDatadog_eq (addDatadogToFargateTask task props).1 props]
  rw [agentPhase_dup (addDatadogToFargateTask task props).1 props
    ((addDatadogToFargateTask task props).1.containers.map (fun c => c.containerName)) hE hmem]

theorem claim_C9_witness :
    addDatadogToFargateTask
        (addDatadogToFargateTask { containers := [{ containerName := "app" }] }
          { datadogApiKeySecret := { id := 0 }, agent := some { enabled := some true } }).1
        { datadogApiKeySecret := { id := 0 }, agent := some { enabled := some true } }
      = ((addDatadogToFargateTask { containers := [{ containerName := "app" }] }
          { datadogApiKeySecret := { id := 0 }, agent := some { enabled := some true } }).1,
         some (JsError.duplicateConstruct "datadog-agent")) :=
  claim_C9_double_invocation { containers := [{ containerName := "app" }] }
    { datadogApiKeySecret := { id := 0 }, agent := some { enabled := some true } } rfl

/-- C8: with firelens logging enabled, service and source both
"myservice" and no tag mapping, the log driver options include
`dd_service=myservice` and `dd_source=myservice`, the site-derived
`Host` with `TLS=on`, and carry no `dd_tags` option. -/
theorem claim_C8_firelens_options (props : AddDatadogToFargateTaskProps)
    (hEn : firelensEnabledB props = true)
    (hSvc : props.fireLensLogging.bind (fun f => f.service) = some "myservice")
    (hSrc : props.fireLensLogging.bind (fun f => f.source) = some "myservice")
    (hTags : props.fireLensLogging.bind (fun f => f.tags) = none) :
    ("dd_service", "myservice") ∈ firelensLogDriverOptions props ∧
    ("dd_source", "myservice") ∈ firelensLogDriverOptions props ∧
    ("Host", "http-intake.logs." ++ props.datadogSite.getD "datadoghq.com")
      ∈ firelensLogDriverOptions props ∧
    ("TLS", "on") ∈ firelensLogDriverOptions props ∧
    List.lookup "dd_tags" (firelensLogDriverOptions props) = none := by
  refine ⟨?_, ?_, ?_, ?_, ?_⟩ <;>
    simp [firelensLogDriverOptions, hSvc, hSrc, hTags, List.lookup]

theorem claim_C8_witness :
    ("dd_service", "myservice") ∈ firelensLogDriverOptions
      { datadogApiKeySecret := { id := 0 },
        fireLensLogging := some { enabled := some true, service := some "myservice",
                                  source := some "myservice" } } ∧
    ("dd_source", "myservice") ∈ firelensLogDriverOptions
      { datadogApiKeySecret := { id := 0 },
        fireLensLogging := some { enabled := some true, service := some "myservice",
                                  source := some "myservice" } } ∧
    ("Host", "http-intake.logs.datadoghq.com") ∈ firelensLogDriverOptions
      { datadogApiKeySecret := { id := 0 },
        fireLensLogging := some { enabled := some true, service := some "myservice",
                                  source := some "myservice" } } ∧
    ("TLS", "on") ∈ firelensLogDriverOptions
      { datadogApiKeySecret := { id := 0 },
        fireLensLogging := some { enabled := some true, service := some "myservice",
                                  source := some "myservice" } } ∧
    List.lookup "dd_tags" (firelensLogDriverOptions
      { datadogApiKeySecret := { id := 0 },
        fireLensLogging := some { enabled := some true, service := some "myservice",
                                  source := some "myservice" } }) = none := by
  have h := claim_C8_firelens_options
    { datadogApiKeySecret := { id := 0 },
      fireLensLogging := some { enabled := some true, service := some "myservice",
                                source := some "myservice" } } rfl rfl rfl rfl
  exact ⟨h.1, h.2.1, h.2.2.1, h.2.2.2.1, h.2.2.2.2⟩

/-- C6: when `applicationEnvVars.doNotSet=true` under `agent.apm`
(resp. `agent.statsd`), no pre-existing sibling container receives the
corresponding APM (resp. StatsD) environment variables, regardless of
the enablement flags: each sibling keeps its environment except for
the writes of the other, non-suppressed subsystem; when the agent is
disabled, or its insertion fails on a duplicate name, sibling
environments are untouched altogether. -/
theorem claim_C6_doNotSet_suppresses (task : TaskDefinition)
    (props : AddDatadogToFargateTaskProps) :
    (agentEnabledB props = false →
      (envView (addDatadogToFargateTask task props).1.containers).take task.containers.length
        = envView task.containers) ∧
    (agentEnabledB props = true →
     "datadog-agent" ∈ task.containers.map (fun c => c.containerName) →
      addDatadogToFargateTask task props
        = (task, some (JsError.duplicateConstruct "datadog-agent"))) ∧
    (agentEnabledB props = true →
     "datadog-agent" ∉ task.containers.map (fun c => c.containerName) →
     (task.containers.map (fun c => c.containerName)).Nodup →
     apmDoNotSetOpt props = some true →
      (envView (addDatadogToFargateTask task props).1.containers).take task.containers.length
        = task.containers.map (fun c => (c.containerName,
            (if statsdPropagationActive props then statsdEnvWrites props else id)
              c.environment))) ∧
    (agentEnabledB props = true →
     "datadog-agent" ∉ task.containers.map (fun c => c.containerName) →
     (task.containers.map (fun c => c.containerName)).Nodup →
     statsdDoNotSetOpt props = some true →
      (envView (addDatadogToFargateTask task props).1.containers).take task.containers.length
        = task.containers.map (fun c => (c.containerName,
            (if apmPropagationActive props then apmEnvWrites props else id)
              c.environment))) := by
  refine ⟨?_, ?_, ?_, ?_⟩
  · intro h1
    rw [addDatadog_eq, agentPhase_disabled task props _ h1]
    obtain ⟨suf, hsuf, _⟩ := firelensPhase_envView task props
      (task.containers.map (fun c => c.containerName))
    rw [show (match ((task, (none : Option JsError))) with
      | (t, some e) => (t, some e)
      | (t, none) => firelensPhase t props (task.containers.map (fun c => c.containerName)))
      = firelensPhase task props (task.containers.map (fun c => c.containerName)) from rfl]
    rw [hsuf]
    exact take_len_append _ _ _ (by simp [envView])
  · intro hE hdup
    rw [addDatadog_eq, agentPhase_dup task props _ hE hdup]
  · intro hE hfresh hnodup h4
    have happ : apmPropagationActive props = false := by
      simp [apmPropagationActive, h4]
    obtain ⟨suf, hsuf⟩ := result_envView task props hE hfresh hnodup
    rw [hsuf, take_len_append _ _ _ (by simp)]
    simp [happ]
  · intro hE hfresh hnodup h4
    have hstat : statsdPropagationActive props = false := by
      simp [statsdPropagationActive, h4]
    obtain ⟨suf, hsuf⟩ := result_envView task props hE hfresh hnodup
    rw [hsuf, take_len_append _ _ _ (by simp)]
    simp [hstat]

theorem claim_C6_witness :
    (envView (addDatadogToFargateTask { containers := [{ containerName := "app" }] }
      { datadogApiKeySecret := { id := 0 },
        agent := some { enabled := some true,
                        apm := some { enabled := some true,
                                      applicationEnvVars := some { doNotSet := some true } },
                        statsd := some { enabled := some true,
                                         applicationEnvVars := some { doNotSet := some true } }
                      } }).1.containers).take 1
      = [("app", [])] := by
  have h := (claim_C6_doNotSet_suppresses { containers := [{ containerName := "app" }] }
    { datadogApiKeySecret := { id := 0 },
      agent := some { enabled := some true,
                      apm := some { enabled := some true,
                                    applicationEnvVars := some { doNotSet := some true } },
                      statsd := some { enabled := some true,
                                       applicationEnvVars := some { doNotSet := some true } }
                    } }).2.2.1 rfl (by decide) (by decide) rfl
  exact h

/-- C1 (amended): with the agent enabled, APM enabled and its
propagation not suppressed, the default env-var names in use, StatsD
propagation inactive, and a well-formed task whose container names do
not include "datadog-agent", every container present before the call
ends with exactly the three APM writes `DD_TRACE_ENABLED=true`,
`DD_AGENT_HOST=localhost`, `DD_TRACE_AGENT_PORT=<port or 8126>`
applied to its environment, while the injected "datadog-agent"
container's environment binds none of those three names. -/
theorem claim_C1_apm_propagation (task : TaskDefinition)
    (props : AddDatadogToFargateTaskProps)
    (hE : agentEnabledB props = true)
    (hApm : jsTruthy ((apmOpt props).bind (fun m => m.enabled)) = true)
    (hDNS : apmDoNotSetOpt props ≠ some true)
    (hN1 : (apmAppEnvVarsOpt props).bind (fun e => e.apmTraceEnabledEnvVarName) = none)
    (hN2 : (apmAppEnvVarsOpt props).bind (fun e => e.apmHostEnvVarName) = none)
    (hN3 : (apmAppEnvVarsOpt props).bind (fun e => e.apmPortEnvVarName) = none)
    (hS : statsdPropagationActive props = false)
    (hfresh : "datadog-agent" ∉ task.containers.map (fun c => c.containerName))
    (hnodup : (task.containers.map (fun c => c.containerName)).Nodup) :
    (envView (addDatadogToFargateTask task props).1.containers).take task.containers.length
      = task.containers.map (fun c => (c.containerName,
          setEnv (setEnv (setEnv c.environment "DD_TRACE_ENABLED" "true")
            "DD_AGENT_HOST" "localhost") "DD_TRACE_AGENT_PORT" (apmPortString props))) ∧
    List.lookup "datadog-agent" (envView (addDatadogToFargateTask task props).1.containers)
      = some (agentEnvironment props) ∧
    List.lookup "DD_TRACE_ENABLED" (agentEnvironment props) = none ∧
    List.lookup "DD_AGENT_HOST" (agentEnvironment props) = none ∧
    List.lookup "DD_TRACE_AGENT_PORT" (agentEnvironment props) = none := by
  have hbeq : (apmDoNotSetOpt props == some true) = false := beq_eq_false_iff_ne.mpr hDNS
  have happ : apmPropagationActive props = true := by
    simp [apmPropagationActive, hApm, hbeq]
  have hT : apmTraceEnabledName props = "DD_TRACE_ENABLED" := by
    rw [apmTraceEnabledName, hN1]
    rfl
  have hH : apmHostName props = "DD_AGENT_HOST" := by
    rw [apmHostName, hN2]
    rfl
  have hP : apmPortName props = "DD_TRACE_AGENT_PORT" := by
    rw [apmPortName, hN3]
    rfl
  obtain ⟨suf, hsuf⟩ := result_envView task props hE hfresh hnodup
  refine ⟨?_, ?_, ?_, ?_, ?_⟩
  · rw [hsuf, take_len_append _ _ _ (by simp)]
    simp [happ, hS, apmEnvWrites, hT, hH, hP]
  · rw [hsuf]
    have hkeys : ∀ p ∈ task.containers.map (fun c => (c.containerName,
        (if statsdPropagationActive props then statsdEnvWrites props else id)
          ((if apmPropagationActive props then apmEnvWrites props else id) c.environment))),
        ("datadog-agent" == p.1) = false := by
      intro p hp
      obtain ⟨c, hc, hpc⟩ := List.mem_map.mp hp
      have hne : c.containerName ≠ "datadog-agent" :=
        fun he => hfresh (List.mem_map.mpr ⟨c, hc, he⟩)
      rw [← hpc]
      exact beq_eq_false_iff_ne.mpr (fun he => hne he.symm)
    rw [lookup_append_right _ _ _ hkeys]
    simp [List.lookup]
  · by_cases h2 : jsTruthy ((statsdOpt props).bind (fun m => m.enabled)) = true <;>
      cases htags : props.agent.bind (fun a => a.tags) <;>
        simp [agentEnvironment, hApm, h2, htags, List.lookup]
  · by_cases h2 : jsTruthy ((statsdOpt props).bind (fun m => m.enabled)) = true <;>
      cases htags : props.agent.bind (fun a => a.tags) <;>
        simp [agentEnvironment, hApm, h2, htags, List.lookup]
  · by_cases h2 : jsTruthy ((statsdOpt props).bind (fun m => m.enabled)) = true <;>
      cases htags : props.agent.bind (fun a => a.tags) <;>
        simp [agentEnvironment, hApm, h2, htags, List.lookup]

/-- C1 counterexample: with `agent.apm.enabled=true` and `doNotSet`
unset but `agent.enabled` unset, the claim's quantification holds of
the configuration yet no environment variable is added: the task is
returned unchanged. -/
theorem claim_C1_counterexample :
    addDatadogToFargateTask { containers := [{ containerName := "app" }] }
      { datadogApiKeySecret := { id := 0 },
        agent := some { apm := some { enabled := some true } } }
      = ({ containers := [{ containerName := "app" }] }, none) := rfl

theorem claim_C1_witness :
    (envView (addDatadogToFargateTask { containers := [{ containerName := "app" }] }
      { datadogApiKeySecret := { id := 0 },
        agent := some { enabled := some true,
                        apm := some { enabled := some true } } }).1.containers).take 1
      = [("app", [("DD_TRACE_ENABLED", "true"), ("DD_AGENT_HOST", "localhost"),
          ("DD_TRACE_AGENT_PORT", "8126")])] ∧
    List.lookup "datadog-agent"
      (envView (addDatadogToFargateTask { containers := [{ containerName := "app" }] }
        { datadogApiKeySecret := { id := 0 },
          agent := some { enabled := some true,
                          apm := some { enabled := some true } } }).1.containers)
      = some [("ECS_FARGATE", "true"), ("DD_SITE", "datadoghq.com"),
          ("DD_APM_ENABLED", "true"), ("DD_APM_RECEIVER_PORT", "8126"),
          ("DD_USE_DOGSTATSD", "false")] := by
  have h := claim_C1_apm_propagation { containers := [{ containerName := "app" }] }
    { datadogApiKeySecret := { id := 0 },
      agent := some { enabled := some true, apm := some { enabled := some true } } }
    rfl rfl (by decide) rfl rfl rfl rfl (by decide) (by decide)
  exact ⟨h.1, h.2.1⟩
